import Mathlib

/-!
Verification development for `crew_helper.py`: an interactive CLI that sends
role-specific prompts to a generative model, validates the JSON it returns,
and on user acceptance persists a final artifact together with the session
history.

The embedding is shallow: the file system, the model endpoint and the user's
keyboard are inputs (scripted streams); the control loop of
`interactive_role` is a fuel-indexed step function over an explicit session
state.  Machine behaviour that Python produces implicitly (truthiness tests,
unhandled exceptions) is modelled explicitly.
-/

namespace CrewHelper

/-! ## Python-style string primitives

`str.strip`, `str.lower`, slicing, `os.path.basename` and `str.replace` as
used by the source, implemented over `List Char` so that everything reduces
in the kernel. -/

/-- Whitespace characters stripped by Python `str.strip()` (ASCII subset). -/
def isPySpace (c : Char) : Bool :=
  c = ' ' ∨ c = '\t' ∨ c = '\n' ∨ c = '\r' ∨ c = '\x0b' ∨ c = '\x0c'

/-- Python `str.strip()`: drop leading and trailing whitespace. -/
def pyStrip (s : String) : String :=
  ⟨((s.data.dropWhile isPySpace).reverse.dropWhile isPySpace).reverse⟩

/-- ASCII lower-casing of one character, as Python `str.lower()` does on
ASCII input. -/
def asciiLower (c : Char) : Char :=
  if 'A' ≤ c ∧ c ≤ 'Z' then Char.ofNat (c.toNat + 32) else c

/-- Python `str.lower()` (ASCII subset). -/
def pyLower (s : String) : String :=
  ⟨s.data.map asciiLower⟩

/-- The idiom `input(...).strip().lower()` used at every decision point. -/
def pyStripLower (s : String) : String :=
  pyLower (pyStrip s)

/-- Python slicing `s[:n]`. -/
def pyTake (n : Nat) (s : String) : String :=
  ⟨s.data.take n⟩

/-- `os.path.basename`: the part of the path after the last slash. -/
def pyBasename (s : String) : String :=
  ⟨s.data.foldl (fun acc c => if c = '/' then [] else acc ++ [c]) []⟩

/-- `str.replace(".md", "")`: delete every (non-overlapping, left-to-right)
occurrence of `.md`. -/
def removeMdList : List Char → List Char
  | '.' :: 'm' :: 'd' :: rest => removeMdList rest
  | c :: rest => c :: removeMdList rest
  | [] => []

/-- `ticket_file` base name computation of the accept branch:
`os.path.basename(ticket_file).replace(".md", "")`. -/
def ticketBase (ticket_file : String) : String :=
  ⟨removeMdList (pyBasename ticket_file).data⟩

/-- Decimal digits of a natural number (fuel-indexed so it reduces). -/
def natDigitsAux : Nat → Nat → List Char
  | 0, _ => []
  | Nat.succ fuel, n =>
    if n < 10 then [Char.ofNat (48 + n)]
    else natDigitsAux fuel (n / 10) ++ [Char.ofNat (48 + n % 10)]

/-- Decimal rendering of a natural number; stands in for the
`strftime("%Y%m%d-%H%M%S")` timestamp string of the accept branch. -/
def tsString (n : Nat) : String :=
  ⟨natDigitsAux (n + 1) n⟩

/-! ## JSON values and `json.loads`

A model of the Python `json` module restricted to what the program
manipulates: null, booleans, integers, strings (with the common escapes),
arrays and objects.  `json_loads` either returns a value or an error
message — the error constructor models `json.loads` raising. -/

/-- JSON values as Python's `json` module produces them (numbers restricted
to integers). -/
inductive Json where
  | null : Json
  | bool : Bool → Json
  | num : Int → Json
  | str : String → Json
  | arr : List Json → Json
  | obj : List (String × Json) → Json
deriving Repr, BEq

/-- JSON insignificant whitespace. -/
def isJsonWs (c : Char) : Bool :=
  c = ' ' ∨ c = '\t' ∨ c = '\n' ∨ c = '\r'

/-- Skip insignificant whitespace. -/
def skipWs (cs : List Char) : List Char :=
  cs.dropWhile isJsonWs

/-- Consume an expected literal spelled as a character list. -/
def eatLit : List Char → List Char → Option (List Char)
  | [], cs => some cs
  | p :: ps, c :: cs => if c = p then eatLit ps cs else none
  | _ :: _, [] => none

/-- Translation of a JSON string escape character. -/
def escChar : Char → Option Char
  | 'b' => some (Char.ofNat 8)
  | 'f' => some (Char.ofNat 12)
  | 'n' => some '\n'
  | 'r' => some '\r'
  | 't' => some '\t'
  | '/' => some '/'
  | '\\' => some '\\'
  | '"' => some '"'
  | _ => none

/-- Parse the body of a JSON string after the opening quote; returns the
decoded characters and the rest of the input. -/
def parseStrChars : List Char → Option (List Char × List Char)
  | [] => none
  | '"' :: rest => some ([], rest)
  | '\\' :: e :: rest =>
    match escChar e with
    | some c =>
      match parseStrChars rest with
      | some (s, r) => some (c :: s, r)
      | none => none
    | none => none
  | c :: rest =>
    if c = '\\' then none
    else
      match parseStrChars rest with
      | some (s, r) => some (c :: s, r)
      | none => none

/-- Longest digit run at the head of the input. -/
def takeDigits : List Char → List Char × List Char
  | c :: cs =>
    if c.isDigit then
      let (d, r) := takeDigits cs
      (c :: d, r)
    else ([], c :: cs)
  | [] => ([], [])

/-- Numeric value of a digit run. -/
def digitsToNat (ds : List Char) : Nat :=
  ds.foldl (fun a c => a * 10 + (c.toNat - 48)) 0

mutual

/-- Recursive-descent JSON value parser (fuel-indexed). -/
def parseVal : Nat → List Char → Option (Json × List Char)
  | 0, _ => none
  | Nat.succ f, cs =>
    match skipWs cs with
    | [] => none
    | c :: rest =>
      if c = 'n' then
        match eatLit ['u', 'l', 'l'] rest with
        | some r => some (Json.null, r)
        | none => none
      else if c = 't' then
        match eatLit ['r', 'u', 'e'] rest with
        | some r => some (Json.bool true, r)
        | none => none
      else if c = 'f' then
        match eatLit ['a', 'l', 's', 'e'] rest with
        | some r => some (Json.bool false, r)
        | none => none
      else if c = '"' then
        match parseStrChars rest with
        | some (s, r) => some (Json.str ⟨s⟩, r)
        | none => none
      else if c = '[' then
        match skipWs rest with
        | ']' :: r2 => some (Json.arr [], r2)
        | r2 =>
          match parseItems f r2 with
          | some (vs, r3) => some (Json.arr vs, r3)
          | none => none
      else if c = '{' then
        match skipWs rest with
        | '}' :: r2 => some (Json.obj [], r2)
        | r2 =>
          match parseMembers f r2 with
          | some (ms, r3) => some (Json.obj ms, r3)
          | none => none
      else if c = '-' then
        match takeDigits rest with
        | ([], _) => none
        | (ds, r2) => some (Json.num (-(digitsToNat ds : Int)), r2)
      else if c.isDigit then
        match takeDigits (c :: rest) with
        | ([], _) => none
        | (ds, r2) => some (Json.num (digitsToNat ds : Int), r2)
      else none

/-- Comma-separated JSON values up to the closing bracket. -/
def parseItems : Nat → List Char → Option (List Json × List Char)
  | 0, _ => none
  | Nat.succ f, cs =>
    match parseVal f cs with
    | none => none
    | some (v, r) =>
      match skipWs r with
      | ',' :: r2 =>
        match parseItems f r2 with
        | some (vs, r3) => some (v :: vs, r3)
        | none => none
      | ']' :: r2 => some ([v], r2)
      | _ => none

/-- Comma-separated `"key": value` members up to the closing brace. -/
def parseMembers : Nat → List Char → Option (List (String × Json) × List Char)
  | 0, _ => none
  | Nat.succ f, cs =>
    match skipWs cs with
    | '"' :: rest =>
      match parseStrChars rest with
      | none => none
      | some (k, r) =>
        match skipWs r with
        | ':' :: r2 =>
          match parseVal f r2 with
          | none => none
          | some (v, r3) =>
            match skipWs r3 with
            | ',' :: r4 =>
              match parseMembers f r4 with
              | some (ms, r5) => some ((⟨k⟩, v) :: ms, r5)
              | none => none
            | '}' :: r4 => some ([(⟨k⟩, v)], r4)
            | _ => none
        | _ => none
    | _ => none

end

/-- `json.loads`: parse a complete JSON document; `Except.error` models the
`json.JSONDecodeError` the library raises. -/
def json_loads (s : String) : Except String Json :=
  match parseVal (s.data.length + 1) s.data with
  | some (v, rest) =>
    if (skipWs rest).isEmpty then Except.ok v else Except.error "Extra data"
  | none => Except.error "Expecting value"

/-- `validate_json` (crew_helper.py lines 101–105): `json.loads` wrapped in
`try/except`, returning `None` on any failure instead of raising. -/
def validate_json (text : String) : Option Json :=
  match json_loads text with
  | Except.ok v => some v
  | Except.error _ => none

/-- Python truthiness of a parsed JSON value (`bool(x)` for the objects
`json.loads` can return). -/
def truthy : Json → Bool
  | Json.null => false
  | Json.bool b => b
  | Json.num n => n != 0
  | Json.str s => s != ""
  | Json.arr xs => !xs.isEmpty
  | Json.obj fs => !fs.isEmpty

/-- Python `not parsed` where `parsed` is `None` or a parsed JSON value:
this is the test on line 136 of crew_helper.py. -/
def pyNot : Option Json → Bool
  | none => true
  | some j => !(truthy j)

/-! ## Configuration -/

/-- The configuration record of `config.yaml` / the hardcoded defaults. -/
structure Config where
  ai_provider : String
  model : String
  max_retries : Nat
  retry_delay : Nat
  temperature : Rat
  max_output_tokens : Nat
  api_key_env : String
deriving Repr, DecidableEq

/-- The hardcoded default configuration returned when `config.yaml` is
absent (crew_helper.py lines 50–58). -/
def default_config : Config :=
  ⟨"google", "gemini-2.5-flash", 3, 2, 7 / 10, 2048, "GOOGLE_API_KEY"⟩

/-- `load_config` (crew_helper.py lines 44–58).  The file system is an
input: `some cfg` is a readable `config.yaml` whose parsed content is
`cfg`; `none` is `FileNotFoundError`.  The returned `Bool` records whether
the "config.yaml not found, using defaults" warning was printed.  The
function is total: the absent-file case never raises. -/
def load_config : Option Config → Config × Bool
  | some cfg => (cfg, false)
  | none => (default_config, true)

/-! ## Prompt registry and model client -/

/-- `ROLE_PROMPTS` (crew_helper.py lines 10–41). -/
def ROLE_PROMPTS : List (String × String) :=
  [("highplanner",
    "\nYou are the **High-Level Planner**.\n- Break down the project vision into milestones and phases.\n- Focus on scope, dependencies, risks.\n- Output strictly valid JSON: \x7b \"milestones\": [...], \"dependencies\": [...], \"risks\": [...] \x7d\n"),
   ("featureplanner",
    "\nYou are the **Feature Planner**.\n- Take one milestone and break it into features and tasks.\n- Be concrete but not yet code-level.\n- Output strictly valid JSON: \x7b \"features\": [...], \"tasks\": [...] \x7d\n"),
   ("architect",
    "\nYou are the **Software Architect**.\n- Design APIs, database schema, and system components.\n- Make explicit ADRs (Architecture Decision Records).\n- Output strictly valid JSON: \x7b \"apis\": [...], \"db_schema\": \x7b...\x7d, \"adrs\": [...] \x7d\n"),
   ("implementer",
    "\nYou are the **Implementer**.\n- Write production-ready code for the design.\n- Include explanations only in comments inside the code.\n- Output strictly valid JSON: \x7b \"files\": [\x7b \"path\": \"file.py\", \"code\": \"...\" \x7d] \x7d\n"),
   ("reviewer",
    "\nYou are the **Reviewer**.\n- Review the code for correctness, security, and best practices.\n- Suggest improvements explicitly.\n- Output strictly valid JSON: \x7b \"findings\": [...], \"suggestions\": [...] \x7d\n")]

/-- `ROLE_PROMPTS.get(role, f"You are acting as {role}.")` used by
`run_ai` (crew_helper.py line 72). -/
def rolePrompt (role : String) : String :=
  match ROLE_PROMPTS.lookup role with
  | some p => p
  | none => "You are acting as " ++ role ++ "."

/-- The composed prompt of `run_ai` (crew_helper.py lines 73–81). -/
def run_ai_prompt (role ticket_content extra_context : String) : String :=
  "\n" ++ rolePrompt role ++ "\n\nTicket context:\n" ++ ticket_content ++
    "\n\nExtra notes / follow-ups:\n" ++ extra_context ++ "\n"

/-- The `CallResult` dictionary `run_ai` returns (crew_helper.py
lines 91–98).  `output_json` is `none` while the key is absent; timestamps
are modelled by a session-local counter. -/
structure CallResult where
  role : String
  model : String
  timestamp : Nat
  ticket_context_preview : String
  extra_context : String
  output_raw : String
  output_json : Option Json
deriving Repr, BEq

/-- `run_ai` (crew_helper.py lines 71–98) on a successful model response:
the response text is an input (the network is external), `now` is the
`datetime.now()` reading.  `output_raw` is `response.text.strip()`;
the `output_json` key is not set. -/
def run_ai (cfg : Config) (role ticket_content extra_context : String)
    (now : Nat) (response_text : String) : CallResult :=
  { role := role
    model := cfg.model
    timestamp := now
    ticket_context_preview := pyTake 200 ticket_content
    extra_context := extra_context
    output_raw := pyStrip response_text
    output_json := none }

/-! ## Interactive session controller

`interactive_role` (crew_helper.py lines 108–189) is embedded as a
fuel-indexed interpreter.  The external world is scripted: `ai` is the
sequence of model-call outcomes (`Except.error` is `run_ai` raising,
`Except.ok text` is `response.text`), `user` is the sequence of lines typed
at `input()` prompts.  Every `open(..., "w")`/`json.dump` pair becomes a
`FileWrite` appended to the state. -/

/-- Content of a persisted artifact: the final document holds one JSON
value, the history document holds the ordered list of CallResults. -/
inductive FileContent where
  | finalDoc : Json → FileContent
  | historyDoc : List CallResult → FileContent
deriving Repr, BEq

/-- One file written by the accept branch. -/
structure FileWrite where
  path : String
  content : FileContent
deriving Repr, BEq

/-- How a session run ends.  `crash` is an unhandled Python exception;
`stuck` only means the finite script or fuel ran out, not a behaviour of
the program. -/
inductive Outcome where
  | accepted : Outcome
  | quit : Outcome
  | crash : String → Outcome
  | stuck : Outcome
deriving Repr, DecidableEq

/-- Scripted external world of one session. -/
structure Script where
  ai : List (Except String String)
  user : List String
deriving Repr

/-- Mutable state of `interactive_role`: its two local variables, the
timestamp counter, the unconsumed scripts, and the files written so far. -/
structure St where
  extra_context : String
  history : List CallResult
  clock : Nat
  ai : List (Except String String)
  user : List String
  writes : List FileWrite
deriving Repr

/-- Result of a session run. -/
structure RunResult where
  outcome : Outcome
  writes : List FileWrite
  history : List CallResult
deriving Repr

/-- Result of the `for attempt in range(max_retries)` loop
(crew_helper.py lines 117–132): `got` is `break` after a successful call,
`fell` is falling off the end of the loop with `result` still `None`
(which happens when the user answers `y` on the last attempt — the
`continue` continues the exhausted for loop), `ret` is the `return` that
quits without saving. -/
inductive ForRes where
  | got : CallResult → St → ForRes
  | fell : St → ForRes
  | ret : St → ForRes
  | stuck : St → ForRes

/-- The retry for-loop of crew_helper.py lines 117–132.  The first
argument is the number of attempts left (initially `max_retries`); the
current attempt is the last one exactly when no attempt remains after it. -/
def attemptLoop (cfg : Config) (role ticket_content : String) :
    Nat → St → ForRes
  | 0, st => ForRes.fell st
  | Nat.succ remaining, st =>
    match st.ai with
    | [] => ForRes.stuck st
    | resp :: restAi =>
      let st1 : St := { st with ai := restAi }
      match resp with
      | Except.ok text =>
        ForRes.got (run_ai cfg role ticket_content st1.extra_context st1.clock text)
          { st1 with clock := st1.clock + 1 }
      | Except.error _ =>
        if remaining > 0 then
          attemptLoop cfg role ticket_content remaining st1
        else
          match st1.user with
          | [] => ForRes.stuck st1
          | choice :: restU =>
            let st2 : St := { st1 with user := restU }
            if pyStripLower choice = "y" then ForRes.fell st2
            else ForRes.ret st2

/-- The corrective instruction installed by the `[r]etry` branch
(crew_helper.py line 141). -/
def retryWarning : String :=
  "⚠️ Your last output was not valid JSON. Please try again with strictly valid JSON."

/-- Path of the final artifact written on acceptance
(crew_helper.py line 173). -/
def finalPath (artifacts_dir base role ts : String) : String :=
  artifacts_dir ++ "/" ++ base ++ "-" ++ role ++ "-" ++ ts ++ "-final.json"

/-- Path of the history artifact written on acceptance
(crew_helper.py line 177). -/
def historyPath (artifacts_dir base role ts : String) : String :=
  artifacts_dir ++ "/" ++ base ++ "-" ++ role ++ "-" ++ ts ++ "-history.json"

/-- The `[a]ccept / [f]ollow-up / [q]uit` decision
(crew_helper.py lines 165–189).  `recurse` is the next iteration of the
while loop; the unrecognized-option branch prints "Invalid option, try
again." and falls back to the top of the while loop. -/
def awaitDecision (recurse : St → RunResult) (role base artifacts_dir : String)
    (r : CallResult) (st : St) : RunResult :=
  match st.user with
  | [] => ⟨Outcome.stuck, st.writes, st.history⟩
  | action :: restU =>
    let st1 : St := { st with user := restU }
    let a := pyStripLower action
    if a = "a" then
      match r.output_json with
      | none => ⟨Outcome.crash "KeyError: output_json", st1.writes, st1.history⟩
      | some jv =>
        let ts := tsString st1.clock
        let st2 : St :=
          { st1 with
            writes := st1.writes ++
              [⟨finalPath artifacts_dir base role ts, FileContent.finalDoc jv⟩,
               ⟨historyPath artifacts_dir base role ts, FileContent.historyDoc st1.history⟩] }
        ⟨Outcome.accepted, st2.writes, st2.history⟩
    else if a = "f" then
      match st1.user with
      | [] => ⟨Outcome.stuck, st1.writes, st1.history⟩
      | followup :: restU2 =>
        recurse { st1 with user := restU2, extra_context := followup }
    else if a = "q" then
      ⟨Outcome.quit, st1.writes, st1.history⟩
    else
      recurse st1

/-- The invalid-JSON decision `[r]etry / [f]ix / [q]uit`
(crew_helper.py lines 137–156).  `decide` appends the CallResult to the
history and enters the accept/follow-up/quit decision; note that the
unrecognized-option branch prints "Invalid option, quitting." and returns. -/
def invalidJsonPhase (recurse : St → RunResult)
    (decide : CallResult → St → RunResult) (r : CallResult) (st : St) :
    RunResult :=
  match st.user with
  | [] => ⟨Outcome.stuck, st.writes, st.history⟩
  | choice :: restU =>
    let st1 : St := { st with user := restU }
    let c := pyStripLower choice
    if c = "r" then
      recurse { st1 with extra_context := retryWarning }
    else if c = "f" then
      match st1.user with
      | [] => ⟨Outcome.stuck, st1.writes, st1.history⟩
      | manual :: restU2 =>
        let st2 : St := { st1 with user := restU2 }
        match json_loads manual with
        | Except.ok v => decide { r with output_json := some v } st2
        | Except.error _ => ⟨Outcome.quit, st2.writes, st2.history⟩
    else if c = "q" then
      ⟨Outcome.quit, st1.writes, st1.history⟩
    else
      ⟨Outcome.quit, st1.writes, st1.history⟩

/-- The `parsed = validate_json(...); if not parsed:` step
(crew_helper.py lines 134–158): the invalid-JSON decision is entered when
parsing fails or the parsed value is falsy; otherwise the parsed value is
attached and the session proceeds to append-and-decide. -/
def validatePhase (recurse : St → RunResult)
    (decide : CallResult → St → RunResult) (r : CallResult) (st : St) :
    RunResult :=
  let parsed := validate_json r.output_raw
  if pyNot parsed then invalidJsonPhase recurse decide r st
  else decide { r with output_json := parsed } st

/-- The `while True` loop of `interactive_role`
(crew_helper.py lines 115–189), fuel-indexed.  Falling off the retry loop
with `result = None` makes line 135 evaluate `result["output_raw"]` on
`None`, an unhandled `TypeError`. -/
def sessionLoop (cfg : Config) (role ticket_content base artifacts_dir : String) :
    Nat → St → RunResult
  | 0, st => ⟨Outcome.stuck, st.writes, st.history⟩
  | Nat.succ fuel, st =>
    let recurse := sessionLoop cfg role ticket_content base artifacts_dir fuel
    let decide := fun (r : CallResult) (st' : St) =>
      awaitDecision recurse role base artifacts_dir r
        { st' with history := st'.history ++ [r] }
    match attemptLoop cfg role ticket_content cfg.max_retries st with
    | ForRes.stuck st' => ⟨Outcome.stuck, st'.writes, st'.history⟩
    | ForRes.ret st' => ⟨Outcome.quit, st'.writes, st'.history⟩
    | ForRes.fell st' =>
      ⟨Outcome.crash "TypeError: NoneType object is not subscriptable",
        st'.writes, st'.history⟩
    | ForRes.got r st' => validatePhase recurse decide r st'

/-- `interactive_role` (crew_helper.py lines 108–189).  The ticket file's
content is an input (the entry point has already checked the file exists);
`artifacts_dir` defaults to "artifacts" at the call site. -/
def interactive_role (cfg : Config) (role ticket_file ticket_content
    artifacts_dir : String) (script : Script) (fuel : Nat) : RunResult :=
  sessionLoop cfg role ticket_content (ticketBase ticket_file) artifacts_dir fuel
    ⟨"", [], 0, script.ai, script.user, []⟩

/-- The role-selection step of `main` (crew_helper.py lines 208–213):
`input(...).strip().lower()`, then membership in `ROLE_PROMPTS`.  Returns
the role the session is started with, or `none` when "Unknown role" is
printed and no session starts. -/
def main_select_role (roleInput : String) : Option String :=
  let role := pyStripLower roleInput
  if (ROLE_PROMPTS.map Prod.fst).contains role then some role else none

/-! ## Invariants of the session loop -/

/-- The state carried by a `ForRes`. -/
def ForRes.toSt : ForRes → St
  | ForRes.got _ s => s
  | ForRes.fell s => s
  | ForRes.ret s => s
  | ForRes.stuck s => s

/-- The retry loop touches neither the file system nor the history. -/
theorem attemptLoop_frame (cfg : Config) (role ticket : String) :
    ∀ (n : Nat) (st : St),
      ((attemptLoop cfg role ticket n st).toSt).writes = st.writes ∧
      ((attemptLoop cfg role ticket n st).toSt).history = st.history
  | 0, _ => ⟨rfl, rfl⟩
  | Nat.succ remaining, st => by
    unfold attemptLoop
    cases st.ai with
    | nil => exact ⟨rfl, rfl⟩
    | cons resp restAi =>
      cases resp with
      | ok text => exact ⟨rfl, rfl⟩
      | error e =>
        by_cases hrem : remaining > 0
        · simp only [hrem, if_true]
          exact attemptLoop_frame cfg role ticket remaining _
        · simp only [hrem, if_false]
          cases st.user with
          | nil => exact ⟨rfl, rfl⟩
          | cons choice restU =>
            by_cases hc : pyStripLower choice = "y"
            · simp only [hc, if_true]; exact ⟨rfl, rfl⟩
            · simp only [hc, if_false]; exact ⟨rfl, rfl⟩

/-- Shape invariant for run results: either nothing has been written (and
the session was not accepted), or the session was accepted and exactly the
final/history pair was written, with the final document equal to the
`output_json` of the last history entry. -/
def writesOk (role base artifacts_dir : String) (rr : RunResult) : Prop :=
  (rr.writes = [] ∧ rr.outcome ≠ Outcome.accepted) ∨
  (rr.outcome = Outcome.accepted ∧
    ∃ ts jv pre last,
      rr.writes =
        [⟨finalPath artifacts_dir base role ts, FileContent.finalDoc jv⟩,
         ⟨historyPath artifacts_dir base role ts, FileContent.historyDoc rr.history⟩] ∧
      rr.history = pre ++ [last] ∧ last.output_json = some jv)

/-- The accept/follow-up/quit decision preserves the artifact invariant,
provided the pending CallResult is the last history entry. -/
theorem awaitDecision_writesOk (role base artifacts_dir : String)
    (recurse : St → RunResult) (r : CallResult) (st : St)
    (hw : st.writes = []) (hh : ∃ pre, st.history = pre ++ [r])
    (hrec : ∀ st2, st2.writes = [] → writesOk role base artifacts_dir (recurse st2)) :
    writesOk role base artifacts_dir (awaitDecision recurse role base artifacts_dir r st) := by
  unfold awaitDecision
  cases st.user with
  | nil => exact Or.inl ⟨hw, nofun⟩
  | cons action restU =>
    by_cases ha : pyStripLower action = "a"
    · simp only [ha, if_true]
      cases hoj : r.output_json with
      | none => exact Or.inl ⟨hw, nofun⟩
      | some jv =>
        refine Or.inr ⟨rfl, tsString st.clock, jv, ?_⟩
        obtain ⟨pre, hpre⟩ := hh
        exact ⟨pre, r, by simp [hw], hpre, hoj⟩
    · simp only [ha, if_false]
      by_cases hf : pyStripLower action = "f"
      · simp only [hf, if_true]
        cases restU with
        | nil => exact Or.inl ⟨hw, nofun⟩
        | cons followup restU2 => exact hrec _ hw
      · simp only [hf, if_false]
        by_cases hq : pyStripLower action = "q"
        · simp only [hq, if_true]; exact Or.inl ⟨hw, nofun⟩
        · simp only [hq, if_false]; exact hrec _ hw

/-- The invalid-JSON decision preserves the artifact invariant. -/
theorem invalidJsonPhase_writesOk (role base artifacts_dir : String)
    (recurse : St → RunResult) (decide : CallResult → St → RunResult)
    (r : CallResult) (st : St) (hw : st.writes = [])
    (hrec : ∀ st2, st2.writes = [] → writesOk role base artifacts_dir (recurse st2))
    (hdec : ∀ r' st2, st2.writes = [] → writesOk role base artifacts_dir (decide r' st2)) :
    writesOk role base artifacts_dir (invalidJsonPhase recurse decide r st) := by
  unfold invalidJsonPhase
  cases st.user with
  | nil => exact Or.inl ⟨hw, nofun⟩
  | cons choice restU =>
    by_cases hr : pyStripLower choice = "r"
    · simp only [hr, if_true]; exact hrec _ hw
    · simp only [hr, if_false]
      by_cases hf : pyStripLower choice = "f"
      · simp only [hf, if_true]
        cases restU with
        | nil => exact Or.inl ⟨hw, nofun⟩
        | cons manual restU2 =>
          dsimp only
          cases json_loads manual with
          | ok v => exact hdec _ _ hw
          | error e => exact Or.inl ⟨hw, nofun⟩
      · simp only [hf, if_false]
        by_cases hq : pyStripLower choice = "q"
        · simp only [hq, if_true]; exact Or.inl ⟨hw, nofun⟩
        · simp only [hq, if_false]; exact Or.inl ⟨hw, nofun⟩

/-- The validation step preserves the artifact invariant. -/
theorem validatePhase_writesOk (role base artifacts_dir : String)
    (recurse : St → RunResult) (decide : CallResult → St → RunResult)
    (r : CallResult) (st : St) (hw : st.writes = [])
    (hrec : ∀ st2, st2.writes = [] → writesOk role base artifacts_dir (recurse st2))
    (hdec : ∀ r' st2, st2.writes = [] → writesOk role base artifacts_dir (decide r' st2)) :
    writesOk role base artifacts_dir (validatePhase recurse decide r st) := by
  unfold validatePhase
  by_cases hp : pyNot (validate_json r.output_raw) = true
  · simp only [hp, if_true]
    exact invalidJsonPhase_writesOk role base artifacts_dir recurse decide r st hw hrec hdec
  · simp only [hp, if_false]
    exact hdec _ _ hw

/-- Master invariant: every session run writes either nothing (without
accepting) or, on acceptance, exactly the final/history pair, the final
document being the parsed value of the last history entry. -/
theorem sessionLoop_writesOk (cfg : Config) (role ticket base artifacts_dir : String) :
    ∀ (fuel : Nat) (st : St), st.writes = [] →
      writesOk role base artifacts_dir
        (sessionLoop cfg role ticket base artifacts_dir fuel st)
  | 0, st, hw => Or.inl ⟨hw, nofun⟩
  | Nat.succ fuel, st, hw => by
    unfold sessionLoop
    have hframe := attemptLoop_frame cfg role ticket cfg.max_retries st
    cases hA : attemptLoop cfg role ticket cfg.max_retries st with
    | stuck st' =>
      rw [hA] at hframe
      exact Or.inl ⟨hframe.1.trans hw, nofun⟩
    | ret st' =>
      rw [hA] at hframe
      exact Or.inl ⟨hframe.1.trans hw, nofun⟩
    | fell st' =>
      rw [hA] at hframe
      exact Or.inl ⟨hframe.1.trans hw, nofun⟩
    | got r st' =>
      rw [hA] at hframe
      refine validatePhase_writesOk role base artifacts_dir _ _ r st'
        (hframe.1.trans hw) (fun st2 h2 => sessionLoop_writesOk cfg role ticket base artifacts_dir fuel st2 h2)
        (fun r' st2 h2 => ?_)
      exact awaitDecision_writesOk role base artifacts_dir _ r'
        { st2 with history := st2.history ++ [r'] } h2 ⟨st2.history, rfl⟩
        (fun st3 h3 => sessionLoop_writesOk cfg role ticket base artifacts_dir fuel st3 h3)

/-- A successful model call within the retry budget: the loop breaks with
the CallResult and an advanced clock. -/
theorem attemptLoop_ok (cfg : Config) (role ticket : String) (k : Nat)
    (st : St) (text : String) (rest : List (Except String String))
    (hai : st.ai = Except.ok text :: rest) :
    attemptLoop cfg role ticket (k + 1) st =
      ForRes.got (run_ai cfg role ticket st.extra_context st.clock text)
        { st with ai := rest, clock := st.clock + 1 } := by
  unfold attemptLoop
  rw [hai]

/-! ## Claims -/

/-- C1 (counterexample): the raw output of this run is the two-character
text consisting of an opening and a closing brace, which parses as the
valid JSON value of the empty object; yet the session takes the
invalid-JSON decision path — the user's "q" there quits and nothing was
appended to the history — because line 136 of crew_helper.py tests Python
truthiness (`if not parsed`) rather than parse success.  Had the claim
held, the CallResult would have been appended and the "q" would have been
answered at AWAITING_DECISION with one history entry. -/
theorem c1_falsy_json_counterexample :
    validate_json "\x7b\x7d" = some (Json.obj []) ∧
    interactive_role default_config "architect" "tickets/T1.md" "t" "artifacts"
        ⟨[Except.ok "\x7b\x7d"], ["q"]⟩ 3 =
      ⟨Outcome.quit, [], []⟩ :=
  ⟨rfl, rfl⟩

/-- C1 (amended): for every model call result whose raw output parses as
valid JSON *with a Python-truthy value*, the controller attaches the
parsed value to the CallResult, appends it to the history, and transitions
to AWAITING_DECISION (`awaitDecision`); the invalid-JSON decision path is
entered when parsing fails or the parsed value is falsy (null, false, 0,
empty string, empty array or empty object). -/
theorem c1_truthy_json_attach_append_await (cfg : Config)
    (role ticket base dir : String) (fuel : Nat) (st : St) (text : String)
    (rest : List (Except String String)) (j : Json)
    (hai : st.ai = Except.ok text :: rest)
    (hmr : 1 ≤ cfg.max_retries)
    (hv : validate_json (pyStrip text) = some j)
    (ht : truthy j = true) :
    sessionLoop cfg role ticket base dir (fuel + 1) st =
      awaitDecision (sessionLoop cfg role ticket base dir fuel) role base dir
        { (run_ai cfg role ticket st.extra_context st.clock text) with
            output_json := some j }
        { st with
            ai := rest
            clock := st.clock + 1
            history := st.history ++
              [{ (run_ai cfg role ticket st.extra_context st.clock text) with
                  output_json := some j }] } := by
  obtain ⟨k, hk⟩ : ∃ k, cfg.max_retries = k + 1 :=
    ⟨cfg.max_retries - 1, by omega⟩
  unfold sessionLoop
  rw [hk, attemptLoop_ok cfg role ticket k st text rest hai]
  dsimp only
  unfold validatePhase
  have hraw : (run_ai cfg role ticket st.extra_context st.clock text).output_raw
      = pyStrip text := rfl
  rw [hraw, hv]
  simp only [pyNot, ht, Bool.not_true, if_false]
  rfl

/-- C1 (witness): the amended theorem applied to a concrete session whose
model output is a one-element JSON array. -/
theorem c1_truthy_json_witness :
    sessionLoop default_config "architect" "t" "T1" "artifacts" 2
        ⟨"", [], 0, [Except.ok "[1]"], ["q"], []⟩ =
      awaitDecision (sessionLoop default_config "architect" "t" "T1" "artifacts" 1)
        "architect" "T1" "artifacts"
        { (run_ai default_config "architect" "t" "" 0 "[1]") with
            output_json := some (Json.arr [Json.num 1]) }
        ⟨"", [{ (run_ai default_config "architect" "t" "" 0 "[1]") with
            output_json := some (Json.arr [Json.num 1]) }], 1, [], ["q"], []⟩ :=
  c1_truthy_json_attach_append_await default_config "architect" "t" "T1"
    "artifacts" 1 ⟨"", [], 0, [Except.ok "[1]"], ["q"], []⟩ "[1]" []
    (Json.arr [Json.num 1]) rfl (by decide) rfl rfl

/-- C2 (code bug): when every one of the `max_retries` automatic attempts
fails and the user answers "y" to "Retry manually?", the `continue` on
line 129 of crew_helper.py continues the *for* loop — which is already on
its last iteration — so control falls through to line 135 with `result`
still `None`, and `result["output_raw"]` raises an unhandled `TypeError`
instead of looping back to CALLING as the spec describes.  No files are
written. -/
theorem c2_manual_retry_crash :
    interactive_role default_config "highplanner" "tickets/T1.md" "t" "artifacts"
        ⟨[Except.error "boom", Except.error "boom", Except.error "boom"], ["y"]⟩ 5 =
      ⟨Outcome.crash "TypeError: NoneType object is not subscriptable", [], []⟩ :=
  rfl

/-- C3 (counterexample): an unrecognized choice does NOT re-prompt at the
same decision point.  First run: at the invalid-JSON decision the choice
"x" quits the session ("Invalid option, quitting.", line 155) instead of
re-prompting.  Second run: at AWAITING_DECISION the choice "zz" falls back
to the top of the while loop, which performs a NEW model call whose result
is appended — the accepted session's history has two entries, not one. -/
theorem c3_unrecognized_choice_counterexample :
    (interactive_role default_config "architect" "tickets/T1.md" "t" "artifacts"
        ⟨[Except.ok "oops"], ["x"]⟩ 3 =
      ⟨Outcome.quit, [], []⟩) ∧
    ((interactive_role default_config "architect" "tickets/T1.md" "t" "artifacts"
        ⟨[Except.ok "[1]", Except.ok "[2]"], ["zz", "a"]⟩ 3).history.length = 2) :=
  ⟨rfl, rfl⟩

/-- C3 (amended): at the invalid-JSON decision point an unrecognized
choice abandons the session (QUIT, nothing more written); at
AWAITING_DECISION an unrecognized choice falls back to the top of the
while loop — i.e. to CALLING, which issues a new model call — rather than
re-prompting at the same point. -/
theorem c3_unrecognized_choice_behaviour :
    (∀ (recurse : St → RunResult) (decide : CallResult → St → RunResult)
       (r : CallResult) (st : St) (choice : String) (restU : List String),
       st.user = choice :: restU →
       pyStripLower choice ≠ "r" →
       pyStripLower choice ≠ "f" →
       pyStripLower choice ≠ "q" →
       invalidJsonPhase recurse decide r st =
         ⟨Outcome.quit, st.writes, st.history⟩) ∧
    (∀ (recurse : St → RunResult) (role base dir : String) (r : CallResult)
       (st : St) (action : String) (restU : List String),
       st.user = action :: restU →
       pyStripLower action ≠ "a" →
       pyStripLower action ≠ "f" →
       pyStripLower action ≠ "q" →
       awaitDecision recurse role base dir r st =
         recurse { st with user := restU }) := by
  constructor
  · intro recurse decide r st choice restU hu hr hf hq
    unfold invalidJsonPhase
    rw [hu]
    dsimp only
    rw [if_neg hr, if_neg hf, if_neg hq]
  · intro recurse role base dir r st action restU hu ha hf hq
    unfold awaitDecision
    rw [hu]
    dsimp only
    rw [if_neg ha, if_neg hf, if_neg hq]

/-- C3 (witness): both branches of the amended theorem at concrete
inputs: the quitting run at choice "x", and the loop-back at action "zz"
with a trivial continuation. -/
theorem c3_unrecognized_choice_witness :
    (invalidJsonPhase (fun s => ⟨Outcome.stuck, s.writes, s.history⟩)
        (fun _ s => ⟨Outcome.stuck, s.writes, s.history⟩)
        (run_ai default_config "architect" "t" "" 0 "oops")
        ⟨"", [], 0, [], ["x"], []⟩ =
      ⟨Outcome.quit, [], []⟩) ∧
    (awaitDecision (fun s => ⟨Outcome.stuck, s.writes, s.history⟩)
        "architect" "T1" "artifacts"
        (run_ai default_config "architect" "t" "" 0 "[1]")
        ⟨"", [], 0, [], ["zz"], []⟩ =
      ⟨Outcome.stuck, [], []⟩) :=
  ⟨c3_unrecognized_choice_behaviour.1 _ _
      (run_ai default_config "architect" "t" "" 0 "oops")
      ⟨"", [], 0, [], ["x"], []⟩ "x" [] rfl (by decide) (by decide) (by decide),
   c3_unrecognized_choice_behaviour.2 _ "architect" "T1" "artifacts"
      (run_ai default_config "architect" "t" "" 0 "[1]")
      ⟨"", [], 0, [], ["zz"], []⟩ "zz" [] rfl (by decide) (by decide) (by decide)⟩

/-- C4: for every session execution — any configuration, scripts and fuel —
either nothing is written and the session did not end in acceptance (this
covers every path reaching QUIT, and the crash and out-of-script cases),
or the session was accepted and exactly the final/history pair was
written, the final document holding the parsed value (`output_json`) of
the last history entry. -/
theorem c4_artifacts_written_together_or_not_at_all (cfg : Config)
    (role ticket_file ticket_content artifacts_dir : String)
    (script : Script) (fuel : Nat) :
    ((interactive_role cfg role ticket_file ticket_content artifacts_dir
        script fuel).writes = [] ∧
     (interactive_role cfg role ticket_file ticket_content artifacts_dir
        script fuel).outcome ≠ Outcome.accepted) ∨
    ((interactive_role cfg role ticket_file ticket_content artifacts_dir
        script fuel).outcome = Outcome.accepted ∧
     ∃ ts jv pre last,
       (interactive_role cfg role ticket_file ticket_content artifacts_dir
          script fuel).writes =
         [⟨finalPath artifacts_dir (ticketBase ticket_file) role ts,
           FileContent.finalDoc jv⟩,
          ⟨historyPath artifacts_dir (ticketBase ticket_file) role ts,
           FileContent.historyDoc
             ((interactive_role cfg role ticket_file ticket_content
                artifacts_dir script fuel).history)⟩] ∧
       (interactive_role cfg role ticket_file ticket_content artifacts_dir
          script fuel).history = pre ++ [last] ∧
       last.output_json = some jv) :=
  sessionLoop_writesOk cfg role ticket_content (ticketBase ticket_file)
    artifacts_dir fuel ⟨"", [], 0, script.ai, script.user, []⟩ rfl

/-- C5: whenever a session is accepted, the persisted final document
equals the `output_json` of the last CallResult of the persisted history
document, and the history document holds exactly the in-memory session
history (built by appending in call order). -/
theorem c5_final_equals_last_history_entry (cfg : Config)
    (role ticket_file ticket_content artifacts_dir : String)
    (script : Script) (fuel : Nat)
    (h : (interactive_role cfg role ticket_file ticket_content artifacts_dir
        script fuel).outcome = Outcome.accepted) :
    ∃ ts jv pre last,
      (interactive_role cfg role ticket_file ticket_content artifacts_dir
         script fuel).writes =
        [⟨finalPath artifacts_dir (ticketBase ticket_file) role ts,
          FileContent.finalDoc jv⟩,
         ⟨historyPath artifacts_dir (ticketBase ticket_file) role ts,
          FileContent.historyDoc
            ((interactive_role cfg role ticket_file ticket_content
               artifacts_dir script fuel).history)⟩] ∧
      (interactive_role cfg role ticket_file ticket_content artifacts_dir
         script fuel).history = pre ++ [last] ∧
      last.output_json = some jv := by
  have hw := sessionLoop_writesOk cfg role ticket_content
    (ticketBase ticket_file) artifacts_dir fuel
    ⟨"", [], 0, script.ai, script.user, []⟩ rfl
  cases hw with
  | inl hl => exact absurd h hl.2
  | inr hr => exact hr.2

/-- C5 (witness): a concrete accepted session — one valid model response,
immediately accepted. -/
theorem c5_witness :
    ∃ ts jv pre last,
      (interactive_role default_config "reviewer" "tickets/T2.md" "t"
         "artifacts" ⟨[Except.ok "[5]"], ["a"]⟩ 2).writes =
        [⟨finalPath "artifacts" (ticketBase "tickets/T2.md") "reviewer" ts,
          FileContent.finalDoc jv⟩,
         ⟨historyPath "artifacts" (ticketBase "tickets/T2.md") "reviewer" ts,
          FileContent.historyDoc
            ((interactive_role default_config "reviewer" "tickets/T2.md" "t"
               "artifacts" ⟨[Except.ok "[5]"], ["a"]⟩ 2).history)⟩] ∧
      (interactive_role default_config "reviewer" "tickets/T2.md" "t"
         "artifacts" ⟨[Except.ok "[5]"], ["a"]⟩ 2).history = pre ++ [last] ∧
      last.output_json = some jv :=
  c5_final_equals_last_history_entry default_config "reviewer"
    "tickets/T2.md" "t" "artifacts" ⟨[Except.ok "[5]"], ["a"]⟩ 2 rfl

/-- C6: `validate_json` returns the parsed structure exactly when
`json.loads` succeeds and `None` exactly when it raises; being a total
function into `Option`, it never propagates an exception to its caller. -/
theorem c6_validate_json_never_raises (text : String) :
    validate_json text = (json_loads text).toOption := by
  unfold validate_json Except.toOption
  cases json_loads text <;> rfl

/-- C7: when `config.yaml` is absent, `load_config` returns the
documented hardcoded default record — provider google, model
gemini-2.5-flash, max_retries 3, retry_delay 2, temperature 0.7,
max_output_tokens 2048, api_key_env GOOGLE_API_KEY — together with the
warning flag, and (being total) does not raise. -/
theorem c7_default_config_on_missing_file :
    load_config none =
      (⟨"google", "gemini-2.5-flash", 3, 2, 7 / 10, 2048, "GOOGLE_API_KEY"⟩,
        true) :=
  rfl

/-- C8: when validation fails on the model output and the user chooses
retry, the session re-enters CALLING with `extra_context` set to the
corrective instruction and the failed attempt's CallResult not appended
(the state passed on carries the history unchanged); consequently, in the
end-to-end scenario — "oops" then retry then valid milestones JSON then
accept — the persisted history holds exactly one entry and the final file
equals the milestones object. -/
theorem c8_failed_attempt_not_recorded :
    (∀ (cfg : Config) (role ticket base dir : String) (fuel : Nat) (st : St)
       (text : String) (restAi : List (Except String String))
       (choice : String) (restU : List String),
       st.ai = Except.ok text :: restAi →
       1 ≤ cfg.max_retries →
       st.user = choice :: restU →
       pyStripLower choice = "r" →
       pyNot (validate_json (pyStrip text)) = true →
       sessionLoop cfg role ticket base dir (fuel + 1) st =
         sessionLoop cfg role ticket base dir fuel
           { st with
               ai := restAi
               user := restU
               clock := st.clock + 1
               extra_context := retryWarning }) ∧
    (interactive_role default_config "highplanner" "tickets/T1.md" "t"
        "artifacts"
        ⟨[Except.ok "oops", Except.ok "\x7b\"milestones\": []\x7d"],
         ["r", "a"]⟩ 3 =
      ⟨Outcome.accepted,
       [⟨"artifacts/T1-highplanner-2-final.json",
         FileContent.finalDoc (Json.obj [("milestones", Json.arr [])])⟩,
        ⟨"artifacts/T1-highplanner-2-history.json",
         FileContent.historyDoc
           [⟨"highplanner", "gemini-2.5-flash", 1, "t", retryWarning,
             "\x7b\"milestones\": []\x7d",
             some (Json.obj [("milestones", Json.arr [])])⟩]⟩],
       [⟨"highplanner", "gemini-2.5-flash", 1, "t", retryWarning,
         "\x7b\"milestones\": []\x7d",
         some (Json.obj [("milestones", Json.arr [])])⟩]⟩) := by
  constructor
  · intro cfg role ticket base dir fuel st text restAi choice restU hai hmr
      hu hc hp
    obtain ⟨k, hk⟩ : ∃ k, cfg.max_retries = k + 1 :=
      ⟨cfg.max_retries - 1, by omega⟩
    conv_lhs => unfold sessionLoop
    rw [hk, attemptLoop_ok cfg role ticket k st text restAi hai]
    dsimp only
    unfold validatePhase
    have hraw : (run_ai cfg role ticket st.extra_context st.clock text).output_raw
        = pyStrip text := rfl
    rw [hraw]
    dsimp only
    rw [hp, if_pos rfl]
    unfold invalidJsonPhase
    rw [hu]
    dsimp only
    rw [if_pos hc]
  · rfl

/-- C8 (witness): the retry transition at a concrete state — invalid
output "oops", user answers "r". -/
theorem c8_retry_witness :
    sessionLoop default_config "highplanner" "t" "T1" "artifacts" 1
        ⟨"", [], 0, [Except.ok "oops"], ["r"], []⟩ =
      sessionLoop default_config "highplanner" "t" "T1" "artifacts" 0
        ⟨retryWarning, [], 1, [], [], []⟩ :=
  c8_failed_attempt_not_recorded.1 default_config "highplanner" "t" "T1"
    "artifacts" 0 ⟨"", [], 0, [Except.ok "oops"], ["r"], []⟩ "oops" [] "r" []
    rfl (by decide) rfl rfl rfl

/-- C9: `main` strips and lowercases the role input before matching, so
role names are accepted case-insensitively ("  Architect " starts an
architect session), and a session starts exactly when the normalized
input is one of the five registry keys. -/
theorem c9_role_input_normalized :
    ROLE_PROMPTS.map Prod.fst =
      ["highplanner", "featureplanner", "architect", "implementer",
       "reviewer"] ∧
    main_select_role "  Architect " = some "architect" ∧
    ∀ s : String,
      main_select_role s =
        if pyStripLower s ∈
            (["highplanner", "featureplanner", "architect", "implementer",
              "reviewer"] : List String)
        then some (pyStripLower s) else none := by
  refine ⟨rfl, rfl, fun s => ?_⟩
  unfold main_select_role
  dsimp only
  by_cases h : pyStripLower s ∈
      (["highplanner", "featureplanner", "architect", "implementer",
        "reviewer"] : List String)
  · have hc : (ROLE_PROMPTS.map Prod.fst).contains (pyStripLower s) = true :=
      List.elem_iff.mpr h
    rw [if_pos hc, if_pos h]
  · have hc : ¬(ROLE_PROMPTS.map Prod.fst).contains (pyStripLower s) = true :=
      fun hcon => h (List.elem_iff.mp hcon)
    rw [if_neg hc, if_neg h]

/-- A run result that records being stuck without touching the state;
used as a trivial continuation in witnesses. -/
def stuckRun (s : St) : RunResult :=
  ⟨Outcome.stuck, s.writes, s.history⟩

/-- Trivial append-and-decide continuation for witnesses. -/
def stuckDecide (_ : CallResult) (s : St) : RunResult :=
  stuckRun s

/-- C10: when the user fixes invalid model output manually and the pasted
text parses, only the `output_json` field of the CallResult is set; every
other field — in particular `output_raw`, still holding the original
invalid model output — is unchanged, and the session proceeds to
append-and-decide with that record; in the concrete scenario the
persisted history entry keeps `output_raw = "oops"` alongside the
manually supplied parsed value. -/
theorem c10_manual_fix_sets_only_output_json :
    (∀ (recurse : St → RunResult) (decide : CallResult → St → RunResult)
       (r : CallResult) (st : St) (choice manual : String)
       (restU : List String) (v : Json),
       st.user = choice :: manual :: restU →
       pyStripLower choice = "f" →
       json_loads manual = Except.ok v →
       invalidJsonPhase recurse decide r st =
         decide { r with output_json := some v } { st with user := restU } ∧
       ({ r with output_json := some v } : CallResult).role = r.role ∧
       ({ r with output_json := some v } : CallResult).model = r.model ∧
       ({ r with output_json := some v } : CallResult).timestamp =
         r.timestamp ∧
       ({ r with output_json := some v } : CallResult).ticket_context_preview =
         r.ticket_context_preview ∧
       ({ r with output_json := some v } : CallResult).extra_context =
         r.extra_context ∧
       ({ r with output_json := some v } : CallResult).output_raw =
         r.output_raw) ∧
    (interactive_role default_config "architect" "tickets/T1.md" "t"
        "artifacts"
        ⟨[Except.ok "oops"], ["f", "\x7b\"fixed\": true\x7d", "a"]⟩ 3 =
      ⟨Outcome.accepted,
       [⟨"artifacts/T1-architect-1-final.json",
         FileContent.finalDoc (Json.obj [("fixed", Json.bool true)])⟩,
        ⟨"artifacts/T1-architect-1-history.json",
         FileContent.historyDoc
           [⟨"architect", "gemini-2.5-flash", 0, "t", "", "oops",
             some (Json.obj [("fixed", Json.bool true)])⟩]⟩],
       [⟨"architect", "gemini-2.5-flash", 0, "t", "", "oops",
         some (Json.obj [("fixed", Json.bool true)])⟩]⟩) := by
  constructor
  · intro recurse decide r st choice manual restU v hu hc hj
    refine ⟨?_, rfl, rfl, rfl, rfl, rfl, rfl⟩
    unfold invalidJsonPhase
    rw [hu]
    dsimp only
    rw [hc, if_neg (by decide : ¬("f" : String) = "r"), if_pos rfl, hj]
  · rfl

/-- C10 (witness): the manual-fix transition at a concrete state, with a
trivial continuation. -/
theorem c10_manual_fix_witness :
    invalidJsonPhase stuckRun stuckDecide
        (run_ai default_config "architect" "t" "" 0 "oops")
        ⟨"", [], 0, [], ["f", "\x7b\"fixed\": true\x7d"], []⟩ =
      stuckDecide
        { (run_ai default_config "architect" "t" "" 0 "oops") with
            output_json := some (Json.obj [("fixed", Json.bool true)]) }
        ⟨"", [], 0, [], [], []⟩ ∧
    ({ (run_ai default_config "architect" "t" "" 0 "oops") with
        output_json := some (Json.obj [("fixed", Json.bool true)]) } :
      CallResult).role = (run_ai default_config "architect" "t" "" 0 "oops").role ∧
    ({ (run_ai default_config "architect" "t" "" 0 "oops") with
        output_json := some (Json.obj [("fixed", Json.bool true)]) } :
      CallResult).model = (run_ai default_config "architect" "t" "" 0 "oops").model ∧
    ({ (run_ai default_config "architect" "t" "" 0 "oops") with
        output_json := some (Json.obj [("fixed", Json.bool true)]) } :
      CallResult).timestamp = (run_ai default_config "architect" "t" "" 0 "oops").timestamp ∧
    ({ (run_ai default_config "architect" "t" "" 0 "oops") with
        output_json := some (Json.obj [("fixed", Json.bool true)]) } :
      CallResult).ticket_context_preview =
        (run_ai default_config "architect" "t" "" 0 "oops").ticket_context_preview ∧
    ({ (run_ai default_config "architect" "t" "" 0 "oops") with
        output_json := some (Json.obj [("fixed", Json.bool true)]) } :
      CallResult).extra_context =
        (run_ai default_config "architect" "t" "" 0 "oops").extra_context ∧
    ({ (run_ai default_config "architect" "t" "" 0 "oops") with
        output_json := some (Json.obj [("fixed", Json.bool true)]) } :
      CallResult).output_raw =
        (run_ai default_config "architect" "t" "" 0 "oops").output_raw :=
  c10_manual_fix_sets_only_output_json.1 stuckRun stuckDecide
    (run_ai default_config "architect" "t" "" 0 "oops")
    ⟨"", [], 0, [], ["f", "\x7b\"fixed\": true\x7d"], []⟩
    "f" "\x7b\"fixed\": true\x7d" [] (Json.obj [("fixed", Json.bool true)])
    rfl rfl rfl

end CrewHelper
